import Mathlib

/-!
Verification of the OneFolder repository's two Rust fragments.

The repository holds two independent units:

* `src-tauri/src/main.rs` — a Tauri command bridge exposing a single
  function `greet(name: &str) -> String` built with
  `format!("Hello, {}! You've been greeted from Rust!wsdasd", name)`.

* `rust-examples/hello-rust/src/main.rs` — a metadata extractor
  `read_files()` that iterates a hardcoded path list
  `["./monalisa.jpg"]`, opens each file (`File::open(path).unwrap()`),
  parses it with the exif library
  (`exifreader.read_from_container(&mut bufreader).unwrap()`), and for
  each parsed field prints
  `println!("{} {} {}", f.tag, f.ifd_num, f.display_value().with_unit(&exif))`.

The extractor is embedded here as a function parameterized over the
ambient effects the Rust code delegates to: the filesystem (`fs`), the
exif library's container parse (`parse`), and the library's unit-aware
value rendering (`render`, which takes the field together with the full
field list because `with_unit` consults sibling fields). An `Option`
result of `none` for `fs` or `parse` models the corresponding `unwrap`
panic: the returned pair is the printed lines together with an aborted
flag.
-/

namespace OneFolder

/-- Embedding of `greet` from `src-tauri/src/main.rs`:
`format!("Hello, {}! You've been greeted from Rust!wsdasd", name)`. -/
def greet (name : String) : String :=
  "Hello, " ++ name ++ "! You've been greeted from Rust!wsdasd"

/-- One parsed metadata field, at the abstraction level the Rust code
consumes from the exif library: a tag identifier (as displayed), the
image-file-directory number (`ifd_num`), and the raw value payload the
renderer consumes. -/
structure Field where
  tag : String
  ifd_num : Nat
  value : String
deriving DecidableEq, Repr

/-- The line printed for one field by
`println!("{} {} {}", f.tag, f.ifd_num, f.display_value().with_unit(&exif))`:
the renderer receives the whole field list since `with_unit` depends on
sibling fields in the same container. -/
def fieldLine (render : Field → List Field → String) (exif : List Field)
    (f : Field) : String :=
  f.tag ++ " " ++ toString f.ifd_num ++ " " ++ render f exif

/-- The `for path in ...` loop body of `read_files`, over an explicit
path list. For each path: open (`none` means `File::open` fails, so the
`unwrap` aborts the process), parse (`none` means
`read_from_container` fails, so its `unwrap` aborts), then print one
line per field in container order. The result pairs the printed lines
with an abort flag; on abort, no line of the failing path nor of any
later path is printed. -/
def readFilesLoop (fs : String → Option (List Nat))
    (parse : List Nat → Option (List Field))
    (render : Field → List Field → String) : List String → List String × Bool
  | [] => ([], false)
  | p :: rest =>
    match fs p with
    | none => ([], true)
    | some bytes =>
      match parse bytes with
      | none => ([], true)
      | some exif =>
        let restOut := readFilesLoop fs parse render rest
        (exif.map (fieldLine render exif) ++ restOut.1, restOut.2)

/-- Embedding of `read_files` from
`rust-examples/hello-rust/src/main.rs`: the loop over the hardcoded
path list `["./monalisa.jpg"]`. -/
def read_files (fs : String → Option (List Nat))
    (parse : List Nat → Option (List Field))
    (render : Field → List Field → String) : List String × Bool :=
  readFilesLoop fs parse render ["./monalisa.jpg"]

/-- Embedding of `main` from `rust-examples/hello-rust/src/main.rs`:
prints `Hello, world!`, then runs `read_files`. -/
def rustMain (fs : String → Option (List Nat))
    (parse : List Nat → Option (List Field))
    (render : Field → List Field → String) : List String × Bool :=
  let r := read_files fs parse render
  ("Hello, world!" :: r.1, r.2)

/-! Concrete sample environments used by the witnesses. -/

/-- A sample parsed field. -/
def sampleField : Field := ⟨"XResolution", 0, "72"⟩

/-- Sample raw bytes of a metadata-bearing file. -/
def sampleBytes : List Nat := [255, 216, 255, 225]

/-- A sample filesystem holding exactly `./monalisa.jpg`. -/
def sampleFs : String → Option (List Nat) :=
  fun p => if p = "./monalisa.jpg" then some sampleBytes else none

/-- A sample container parse recognizing `sampleBytes` as a one-field
container. -/
def sampleParse : List Nat → Option (List Field) :=
  fun b => if b = sampleBytes then some [sampleField] else none

/-- A sample unit-aware renderer: shows the raw value. -/
def sampleRender : Field → List Field → String :=
  fun f _ => f.value

/-! ## Claims about the command bridge (`greet`) -/

/-- C1 (counterexample): `greet "World"` is not the string
`"Hello, World! You've been greeted from Rust!"`; the code appends the
stray characters `wsdasd` after the exclamation mark. -/
theorem greet_not_spec_template :
    greet "World" ≠ "Hello, World! You've been greeted from Rust!" := by
  decide

/-- C1 (amended): for every input string `name`, `greet name` returns
exactly `"Hello, " ++ name ++ "! You've been greeted from Rust!wsdasd"`,
the input embedded between the fixed prefix and the fixed suffix that
ends in the stray characters `wsdasd`. -/
theorem greet_exact_output (name : String) :
    greet name = "Hello, " ++ name ++ "! You've been greeted from Rust!wsdasd" :=
  rfl

/-- C4: `greet ""` is the template with an empty embedded segment,
`greet "World"` contains the literal substring `"World"`, and in general
the input string appears verbatim inside the returned string, between a
fixed front part and a fixed back part. -/
theorem greet_embeds_input :
    greet "" = "Hello, " ++ "" ++ "! You've been greeted from Rust!wsdasd" ∧
    (∃ front back : String, greet "World" = front ++ "World" ++ back) ∧
    (∀ s : String, ∃ front back : String, greet s = front ++ s ++ back) :=
  ⟨rfl, ⟨"Hello, ", "! You've been greeted from Rust!wsdasd", rfl⟩,
    fun s => ⟨"Hello, ", "! You've been greeted from Rust!wsdasd", rfl⟩⟩

/-- C5: `greet` is deterministic: two calls with the same input string
yield identical output strings. -/
theorem greet_deterministic (a b : String) (h : a = b) : greet a = greet b := by
  rw [h]

/-- C5 witness: determinism instantiated at the concrete input
`"World"`. -/
theorem greet_deterministic_witness : greet "World" = greet "World" :=
  greet_deterministic "World" "World" rfl

/-- C8: `greet` is total: every input string yields a result string,
with no failure branch; the result has a definite shape (the input
between the two fixed literals) and a definite length (input length plus
the 45 characters of the fixed literals). -/
theorem greet_total (s : String) :
    ∃ r : String, greet s = r ∧ r.length = s.length + 45 := by
  refine ⟨greet s, rfl, ?_⟩
  have h1 : ("Hello, " : String).length = 7 := rfl
  have h2 : ("! You've been greeted from Rust!wsdasd" : String).length = 38 := rfl
  simp [greet, String.length_append, h1, h2]
  omega

/-- C10: `greet` is injective: distinct inputs yield distinct outputs,
because the name is embedded verbatim between fixed prefix and suffix
literals. -/
theorem greet_injective (a b : String) (h : greet a = greet b) : a = b := by
  have hd : ("Hello, ".data ++ a.data) ++ "! You've been greeted from Rust!wsdasd".data
      = ("Hello, ".data ++ b.data) ++ "! You've been greeted from Rust!wsdasd".data := by
    have := congrArg String.data h
    simpa [greet, String.data_append, List.append_assoc] using this
  have hmid : "Hello, ".data ++ a.data = "Hello, ".data ++ b.data :=
    List.append_cancel_right hd
  have hab : a.data = b.data := List.append_cancel_left hmid
  exact String.ext hab

/-- C10 witness: injectivity applied at the concrete input pair
`("Ada", "Ada")` with the hypothesis `greet "Ada" = greet "Ada"`
discharged by `rfl`. -/
theorem greet_injective_witness : ("Ada" : String) = "Ada" :=
  greet_injective "Ada" "Ada" rfl

/-! ## Claims about the metadata extractor (`read_files`) -/

/-- C2: for a well-formed metadata-bearing file (the filesystem yields
its bytes and the container parse succeeds), the extractor prints
exactly as many lines as the container reports fields, and the `i`-th
line prints the `i`-th field's reported image-file-directory number as
its directory index. -/
theorem read_files_line_count_and_dirs (fs : String → Option (List Nat))
    (parse : List Nat → Option (List Field))
    (render : Field → List Field → String) (p : String) (b : List Nat)
    (exif : List Field) (hopen : fs p = some b) (hparse : parse b = some exif) :
    (readFilesLoop fs parse render [p]).1.length = exif.length ∧
    ∀ i : Nat, ∀ f : Field, exif[i]? = some f →
      (readFilesLoop fs parse render [p]).1[i]? =
        some (f.tag ++ " " ++ toString f.ifd_num ++ " " ++ render f exif) := by
  have hlines : (readFilesLoop fs parse render [p]).1 =
      exif.map (fieldLine render exif) := by
    simp [readFilesLoop, hopen, hparse]
  refine ⟨by simp [hlines], ?_⟩
  intro i f hf
  simp [hlines, List.getElem?_map, hf, fieldLine]

/-- C2 witness: on the sample one-field file, line 0 prints the sample
field's tag, directory index `0`, and rendered value. -/
theorem read_files_line_count_and_dirs_witness :
    (readFilesLoop sampleFs sampleParse sampleRender ["./monalisa.jpg"]).1[0]? =
      some (sampleField.tag ++ " " ++ toString sampleField.ifd_num ++ " "
        ++ sampleRender sampleField [sampleField]) :=
  (read_files_line_count_and_dirs sampleFs sampleParse sampleRender
    "./monalisa.jpg" sampleBytes [sampleField] (by simp [sampleFs])
    (by simp [sampleParse])).2 0 sampleField rfl

/-- C3: if a path's file cannot be opened (`fs p = none`) or its bytes
cannot be parsed as a valid metadata container, the whole run aborts:
no line is printed from that point on and the remaining paths are never
processed. -/
theorem read_files_fatal_on_failure (fs : String → Option (List Nat))
    (parse : List Nat → Option (List Field))
    (render : Field → List Field → String) (p : String) (rest : List String)
    (hfail : fs p = none ∨ ∃ b, fs p = some b ∧ parse b = none) :
    readFilesLoop fs parse render (p :: rest) = ([], true) := by
  rcases hfail with h | ⟨b, hb, hp⟩
  · simp [readFilesLoop, h]
  · simp [readFilesLoop, hb, hp]

/-- C3 witness: with `./missing.jpg` unopenable and placed before the
valid `./monalisa.jpg`, the run aborts with no output and the valid
remaining path is never processed. -/
theorem read_files_fatal_on_failure_witness :
    readFilesLoop sampleFs sampleParse sampleRender
      ["./missing.jpg", "./monalisa.jpg"] = ([], true) :=
  read_files_fatal_on_failure sampleFs sampleParse sampleRender
    "./missing.jpg" ["./monalisa.jpg"] (Or.inl (by simp [sampleFs]))

/-- C6: on a successfully parsed file each field is printed on its own
line as `tag ++ " " ++ directory-index ++ " " ++ unit-qualified value`,
space-separated with no trailing delimiter, and the lines are exactly
the map over the container's field list in the container's order. -/
theorem read_files_line_format_and_order (fs : String → Option (List Nat))
    (parse : List Nat → Option (List Field))
    (render : Field → List Field → String) (p : String) (b : List Nat)
    (exif : List Field) (hopen : fs p = some b) (hparse : parse b = some exif) :
    readFilesLoop fs parse render [p] =
      (exif.map (fun f => f.tag ++ " " ++ toString f.ifd_num ++ " " ++ render f exif),
        false) := by
  simp [readFilesLoop, hopen, hparse, fieldLine]

/-- A second sample container whose two fields are exposed in an order
not sorted by tag or by directory index. -/
def sampleExif2 : List Field := [⟨"ImageWidth", 1, "4032"⟩, ⟨"Artist", 0, "anon"⟩]

/-- Raw bytes of the two-field sample file. -/
def sampleBytes2 : List Nat := [77, 77, 0, 42]

/-- A sample filesystem holding the two-field sample file. -/
def sampleFs2 : String → Option (List Nat) :=
  fun p => if p = "./monalisa.jpg" then some sampleBytes2 else none

/-- A sample parse recognizing `sampleBytes2` as the two-field
container `sampleExif2`. -/
def sampleParse2 : List Nat → Option (List Field) :=
  fun b => if b = sampleBytes2 then some sampleExif2 else none

/-- C6 witness: the two-field sample file yields exactly its two lines,
in the container's order (not sorted by tag or directory), with no
abort. -/
theorem read_files_line_format_and_order_witness :
    readFilesLoop sampleFs2 sampleParse2 sampleRender ["./monalisa.jpg"] =
      (["ImageWidth 1 4032", "Artist 0 anon"], false) := by
  have h := read_files_line_format_and_order sampleFs2 sampleParse2 sampleRender
    "./monalisa.jpg" sampleBytes2 sampleExif2 (by simp [sampleFs2])
    (by simp [sampleParse2])
  simpa [sampleExif2, sampleRender] using h

/-- C7: a file that opens and parses successfully but reports zero
metadata fields produces zero output lines and does not abort. -/
theorem read_files_empty_container (fs : String → Option (List Nat))
    (parse : List Nat → Option (List Field))
    (render : Field → List Field → String) (p : String) (b : List Nat)
    (hopen : fs p = some b) (hparse : parse b = some []) :
    readFilesLoop fs parse render [p] = ([], false) := by
  simp [readFilesLoop, hopen, hparse]

/-- Raw bytes of a sample file whose container parses but holds zero
fields. -/
def sampleBytesEmpty : List Nat := [73, 73, 42, 0]

/-- A sample filesystem holding the zero-field sample file. -/
def sampleFsEmpty : String → Option (List Nat) :=
  fun p => if p = "./empty.jpg" then some sampleBytesEmpty else none

/-- A sample parse recognizing `sampleBytesEmpty` as a container with
zero fields. -/
def sampleParseEmpty : List Nat → Option (List Field) :=
  fun b => if b = sampleBytesEmpty then some [] else none

/-- C7 witness: the zero-field sample file yields zero lines and no
abort. -/
theorem read_files_empty_container_witness :
    readFilesLoop sampleFsEmpty sampleParseEmpty sampleRender ["./empty.jpg"] =
      ([], false) :=
  read_files_empty_container sampleFsEmpty sampleParseEmpty sampleRender
    "./empty.jpg" sampleBytesEmpty (by simp [sampleFsEmpty])
    (by simp [sampleParseEmpty])

/-- C9: the extractor's output is a pure function of the files'
contents: two runs over filesystem states that agree on every path in
the batch produce identical output (in particular, two runs on the same
unmodified file are identical). -/
theorem read_files_pure (fs1 fs2 : String → Option (List Nat))
    (parse : List Nat → Option (List Field))
    (render : Field → List Field → String) (paths : List String)
    (h : ∀ q ∈ paths, fs1 q = fs2 q) :
    readFilesLoop fs1 parse render paths = readFilesLoop fs2 parse render paths := by
  induction paths with
  | nil => rfl
  | cons p rest ih =>
    have hp : fs1 p = fs2 p := h p (List.mem_cons_self _ _)
    have hrest : readFilesLoop fs1 parse render rest =
        readFilesLoop fs2 parse render rest :=
      ih (fun q hq => h q (List.mem_cons_of_mem _ hq))
    simp only [readFilesLoop]
    rw [hp, hrest]

/-- An alternative filesystem state agreeing with `sampleFs` on
`./monalisa.jpg` but differing elsewhere. -/
def sampleFsAlt : String → Option (List Nat) :=
  fun p => if p = "./monalisa.jpg" then some sampleBytes else some []

/-- C9 witness: purity applied to the concrete batch
`["./monalisa.jpg"]` over two filesystem states that agree on that
path. -/
theorem read_files_pure_witness :
    readFilesLoop sampleFs sampleParse sampleRender ["./monalisa.jpg"] =
      readFilesLoop sampleFsAlt sampleParse sampleRender ["./monalisa.jpg"] :=
  read_files_pure sampleFs sampleFsAlt sampleParse sampleRender
    ["./monalisa.jpg"] (by
      intro q hq
      simp only [List.mem_singleton] at hq
      subst hq
      simp [sampleFs, sampleFsAlt])

end OneFolder
